import Mathlib

/-
Verification development for the journal-scraper application
(src/app.py and src/database.py).

The Python code is shallowly embedded: a parsed HTML page (the
BeautifulSoup object handed to every extractor) is modelled by the
`Doc` structure, which records the outcome of the BeautifulSoup query
primitives the code uses (meta tags with their attributes, the text of
the first h1/title/... tag, the text of particular visible elements,
and the link lists produced by the two CSS selectors).  Python values
that may be None are modelled by `PyVal`; Python exceptions are
modelled by the `Except PyErr` monad; Python dictionaries by
association lists (`PyDict`).  The regular-expression searches the
code performs are implemented character by character with the exact
ordered-alternation and greedy semantics of the patterns involved
(ASCII reading of the character classes).  Network fetches are
modelled by a `World` function from URL to optional document.
-/

deriving instance DecidableEq for Except

namespace JournalScraper

/-- Unfolding of monadic bind on a successful Except value. -/
@[simp] theorem exceptBindOk {ε α β : Type} (a : α) (f : α → Except ε β) :
    (Except.ok a : Except ε α) >>= f = f a := rfl

/-- Unfolding of monadic bind on a failed Except value. -/
@[simp] theorem exceptBindErr {ε α β : Type} (e : ε) (f : α → Except ε β) :
    (Except.error e : Except ε α) >>= f = Except.error e := rfl

/-- Unfolding of pure for Except. -/
@[simp] theorem exceptPure {ε α : Type} (a : α) :
    (pure a : Except ε α) = Except.ok a := rfl

/-- Python exception kinds relevant to this program. -/
inductive PyErr where
  | keyError
  | valueError
  | indexError
  | typeError
deriving DecidableEq

/-- A Python value that is either None or a string. -/
inductive PyVal where
  | vNone
  | vStr (s : String)
deriving DecidableEq

/-- Python truthiness for the values above: None and the empty string are falsy. -/
def pyTruthy : PyVal → Bool
  | .vNone => false
  | .vStr s => s ≠ ""

/-- Rendering of a value inside a Python f-string: None prints as the text None. -/
def pyFStr : PyVal → String
  | .vNone => "None"
  | .vStr s => s

/-- Python string concatenation value + str: raises TypeError when value is None. -/
def pyAddStr : PyVal → String → Except PyErr String
  | .vStr s, t => .ok (s ++ t)
  | .vNone, _ => .error .typeError

/-- A Python dict with string keys, as an association list in insertion order. -/
abbrev PyDict := List (String × PyVal)

/-- dict lookup returning an option (first binding of the key). -/
def pyLookup (d : PyDict) (k : String) : Option PyVal :=
  (d.find? (fun p => p.1 == k)).map (fun p => p.2)

/-- Python d[k]: raises KeyError when the key is absent. -/
def pyGetItem (d : PyDict) (k : String) : Except PyErr PyVal :=
  match pyLookup d k with
  | some v => .ok v
  | none => .error .keyError

/-- Python d.get(k, default). -/
def pyGetD (d : PyDict) (k : String) (dflt : PyVal) : PyVal :=
  (pyLookup d k).getD dflt

/-- The whitespace characters of the Python regex class backslash-s (ASCII). -/
def pyIsSpace (c : Char) : Bool :=
  c = ' ' || c = '\t' || c = '\n' || c = '\r' || c = '\x0b' || c = '\x0c'

/-- ASCII digit, the regex class backslash-d read over ASCII. -/
def pyIsDigit (c : Char) : Bool :=
  '0' ≤ c && c ≤ '9'

/-- ASCII letter. -/
def pyIsAlpha (c : Char) : Bool :=
  ('a' ≤ c && c ≤ 'z') || ('A' ≤ c && c ≤ 'Z')

/-- The character class of letters and digits used by the issue pattern
(A-Z0-9 under the IGNORECASE flag, ASCII reading). -/
def pyIsAlnum (c : Char) : Bool :=
  pyIsAlpha c || pyIsDigit c

/-- Case-sensitive literal match: returns the remainder after the pattern. -/
def dropPre : List Char → List Char → Option (List Char)
  | [], s => some s
  | _ :: _, [] => none
  | p :: ps, c :: cs => if c = p then dropPre ps cs else none

/-- Case-insensitive literal match (ASCII folding), returning the remainder. -/
def dropPreCI : List Char → List Char → Option (List Char)
  | [], s => some s
  | _ :: _, [] => none
  | p :: ps, c :: cs => if c.toLower = p.toLower then dropPreCI ps cs else none

/-- Substring test on character lists (Python `in` on strings). -/
def listContainsSub (pat : List Char) : List Char → Bool
  | [] => (dropPre pat []).isSome
  | c :: rest => (dropPre pat (c :: rest)).isSome || listContainsSub pat rest

/-- Python `pat in s` for strings. -/
def strContains (s pat : String) : Bool :=
  listContainsSub pat.data s.data

/-- Python str.replace(pat, "") for a non-empty literal pattern: removes every
non-overlapping occurrence, scanning left to right and continuing after each hit.
The fuel argument is the length of the scanned text, which suffices because a
non-empty pattern consumes at least one character per hit. -/
def pyDeleteAllFuel (pat : List Char) : Nat → List Char → List Char
  | 0, s => s
  | _ + 1, [] => []
  | n + 1, c :: rest =>
    match dropPre pat (c :: rest) with
    | some r2 => pyDeleteAllFuel pat n r2
    | none => c :: pyDeleteAllFuel pat n rest

/-- str.replace(pat, "") on strings. -/
def pyDeleteAll (s pat : String) : String :=
  String.mk (pyDeleteAllFuel pat.data s.data.length s.data)

/-- Python str.strip('/'): remove all leading and trailing slashes. -/
def pyStripSlashes (s : String) : String :=
  String.mk (((s.data.dropWhile (fun c => c = '/')).reverse.dropWhile
    (fun c => c = '/')).reverse)

/-- Python str.strip(): remove leading and trailing whitespace. -/
def pyStripWs (s : String) : String :=
  String.mk (((s.data.dropWhile pyIsSpace).reverse.dropWhile pyIsSpace).reverse)

/-- Python str.split() with no argument: split on whitespace runs, no empties. -/
def pySplitWsAux : List Char → List Char → List String
  | [], acc => if acc.isEmpty then [] else [String.mk acc.reverse]
  | c :: rest, acc =>
    if pyIsSpace c then
      if acc.isEmpty then pySplitWsAux rest []
      else String.mk acc.reverse :: pySplitWsAux rest []
    else pySplitWsAux rest (c :: acc)

/-- Python str.split() with no argument. -/
def pySplitWs (s : String) : List String :=
  pySplitWsAux s.data []

/-- Python str.split(sep) for a non-empty separator; fuel as for replace. -/
def pySplitOnFuel (sep : List Char) : Nat → List Char → List Char → List String
  | 0, s, acc => [String.mk (acc.reverse ++ s)]
  | _ + 1, [], acc => [String.mk acc.reverse]
  | n + 1, c :: rest, acc =>
    match dropPre sep (c :: rest) with
    | some r2 => String.mk acc.reverse :: pySplitOnFuel sep n r2 []
    | none => pySplitOnFuel sep n rest (c :: acc)

/-- Python str.split(sep). -/
def pySplitOn (s sep : String) : List String :=
  pySplitOnFuel sep.data s.data.length s.data []

/-- Python str[:n]. -/
def pyTake (s : String) (n : Nat) : String :=
  String.mk (s.data.take n)

/-- Python str.capitalize(): first character upper-cased, the rest lower-cased. -/
def pyCapitalize (s : String) : String :=
  match s.data with
  | [] => ""
  | c :: rest => String.mk (c.toUpper :: rest.map Char.toLower)

/-- Decimal value of a digit run. -/
def digitsToNat (ds : List Char) : Nat :=
  ds.foldl (fun n c => 10 * n + (c.toNat - '0'.toNat)) 0

/-- Python int(str): strips surrounding whitespace, accepts an optional sign and
a non-empty ASCII digit run, raises ValueError otherwise. -/
def pyInt (s : String) : Except PyErr Int :=
  let t := ((s.data.dropWhile pyIsSpace).reverse.dropWhile pyIsSpace).reverse
  match t with
  | '-' :: ds =>
    if ds ≠ [] ∧ ds.all pyIsDigit then .ok (-(digitsToNat ds : Int)) else .error .valueError
  | '+' :: ds =>
    if ds ≠ [] ∧ ds.all pyIsDigit then .ok (digitsToNat ds : Int) else .error .valueError
  | ds =>
    if ds ≠ [] ∧ ds.all pyIsDigit then .ok (digitsToNat ds : Int) else .error .valueError

/-- Python list[i] on a string list: non-negative and negative indices,
IndexError out of range. -/
def pyListGetStr (xs : List String) (i : Int) : Except PyErr String :=
  if 0 ≤ i ∧ i < (xs.length : Int) then .ok (xs.getD i.toNat "")
  else if -(xs.length : Int) ≤ i ∧ i < 0 then .ok (xs.getD (xs.length - (-i).toNat) "")
  else .error .indexError

/-- Truthiness of an optional string (used where Python tests a possibly-None string). -/
def optTruthy : Option String → Bool
  | none => false
  | some s => s ≠ ""

/-! ## Regular-expression searches performed by the code

Each Python pattern is implemented as a matcher that attempts the pattern
at one position and returns the captured group(s), plus a generic leftmost
search that tries every start position from the left.  Ordered alternation
and greedy repetition follow the Python engine. -/

/-- Leftmost search: try the matcher at each start position from the left.
None of the embedded patterns matches the empty string, so the final empty
position is never a hit. -/
def searchGen {α : Type} (m : List Char → Option α) : List Char → Option α
  | [] => none
  | c :: rest =>
    match m (c :: rest) with
    | some r => some r
    | none => searchGen m rest

/-- The tail of the volume pattern after the keyword: an optional period (the
engine backtracks over it), any whitespace, then a non-empty digit run, which
is the captured group. -/
def volAfterKw (s : List Char) : Option String :=
  let core : List Char → Option String := fun r =>
    let r2 := r.dropWhile pyIsSpace
    let ds := r2.takeWhile pyIsDigit
    if ds.isEmpty then none else some (String.mk ds)
  match s with
  | '.' :: r2 =>
    match core r2 with
    | some g => some g
    | none => core s
  | _ => core s

/-- One attempt of the volume pattern (Volume|Vol)\.?\s*(\d+), IGNORECASE,
with the ordered alternation of the Python engine. -/
def volMatchAt (s : List Char) : Option String :=
  match (dropPreCI "volume".data s).bind volAfterKw with
  | some g => some g
  | none => (dropPreCI "vol".data s).bind volAfterKw

/-- The captured token of the issue pattern: a non-empty alphanumeric run,
greedily followed by at most one single-whitespace-separated further run;
the whitespace character is part of the capture. -/
def issToken (r : List Char) : Option String :=
  let r2 := r.dropWhile pyIsSpace
  let t1 := r2.takeWhile pyIsAlnum
  if t1.isEmpty then none
  else
    let r3 := r2.drop t1.length
    match r3 with
    | c :: r4 =>
      if pyIsSpace c then
        let t2 := r4.takeWhile pyIsAlnum
        if t2.isEmpty then some (String.mk t1)
        else some (String.mk (t1 ++ c :: t2))
      else some (String.mk t1)
    | [] => some (String.mk t1)

/-- The tail of the issue pattern after the keyword: optional period with
backtracking, then the captured token. -/
def issAfterKw (s : List Char) : Option String :=
  match s with
  | '.' :: r2 =>
    match issToken r2 with
    | some g => some g
    | none => issToken s
  | _ => issToken s

/-- One attempt of the issue pattern (Issue|Iss|No)\.?\s*([A-Z0-9]+(\s[A-Z0-9]+)?),
IGNORECASE, with ordered alternation: Issue, then Iss, then No. -/
def issMatchAt (s : List Char) : Option String :=
  match (dropPreCI "issue".data s).bind issAfterKw with
  | some g => some g
  | none =>
    match (dropPreCI "iss".data s).bind issAfterKw with
    | some g => some g
    | none => (dropPreCI "no".data s).bind issAfterKw

/-- _find_pattern from app.py: try each pattern in turn with a leftmost
search and return the stripped first capture of the first hit. -/
def find_pattern (patterns : List (List Char → Option String)) (text : String) :
    Option String :=
  match patterns with
  | [] => none
  | p :: rest =>
    match searchGen p text.data with
    | some g => some (pyStripWs g)
    | none => find_pattern rest text

/-- _parse_volume_issue_string from app.py: combine the volume and issue
matches; spaces (only the space character) inside the issue capture are
removed before rendering. -/
def parse_volume_issue_string (textString : String) : Option String :=
  let volume := find_pattern [volMatchAt] textString
  let issue := find_pattern [issMatchAt] textString
  if optTruthy volume ∧ optTruthy issue then
    let issueFormatted := String.mk ((issue.getD "").data.filter (fun c => c ≠ ' '))
    some (volume.getD "" ++ "(" ++ issueFormatted ++ ")")
  else if optTruthy volume then volume
  else none

/-- One attempt of the date pattern ([A-Za-z]+)\s+(\d{1,2}),\s+(\d{4}) used on
the visible published-date text; returns (month word, day, year). The day
repetition is greedy with backtracking before the comma; the year is the
first four characters of a digit run of length at least four. -/
def mdyMatchAt (s : List Char) : Option (String × String × String) :=
  let letters := s.takeWhile pyIsAlpha
  if letters.isEmpty then none
  else
    let r1 := s.drop letters.length
    let sp1 := r1.takeWhile pyIsSpace
    if sp1.isEmpty then none
    else
      let r2 := r1.drop sp1.length
      let ds := r2.takeWhile pyIsDigit
      let afterDay : Option (List Char × List Char) :=
        if 2 ≤ ds.length ∧ (r2.drop 2).take 1 = [','] then some (ds.take 2, r2.drop 3)
        else if 1 ≤ ds.length ∧ (r2.drop 1).take 1 = [','] then some (ds.take 1, r2.drop 2)
        else none
      match afterDay with
      | none => none
      | some (day, r3) =>
        let sp2 := r3.takeWhile pyIsSpace
        if sp2.isEmpty then none
        else
          let r4 := r3.drop sp2.length
          let ys := r4.takeWhile pyIsDigit
          if 4 ≤ ys.length then some (String.mk letters, String.mk day, String.mk (ys.take 4))
          else none

/-- One attempt of the pattern (\d+)\((\d+)\) used by the IEEE formatter to
split a combined volume(issue) string. -/
def volIssMatchAt (s : List Char) : Option (String × String) :=
  let ds := s.takeWhile pyIsDigit
  if ds.isEmpty then none
  else
    match s.drop ds.length with
    | '(' :: r2 =>
      let ds2 := r2.takeWhile pyIsDigit
      if ds2.isEmpty then none
      else
        match r2.drop ds2.length with
        | ')' :: _ => some (String.mk ds, String.mk ds2)
        | _ => none
    | _ => none

/-! ## The parsed-document model and the field extractors of app.py -/

/-- A meta tag as BeautifulSoup sees it: its name attribute, its property
attribute and its content attribute, each possibly absent. -/
structure MetaTag where
  nameAttr : Option String
  propAttr : Option String
  contentAttr : Option String
deriving DecidableEq

/-- A parsed HTML document, recording the outcome of every BeautifulSoup
query the code performs on it: the meta tags in document order; the
stripped text of the first title/h1/h2/h3/h4 tag when one exists; the
stripped text of the parent of a strong tag whose string matches
Published: (absent when no such strong or no parent); the stripped text
of the next sibling of the parent of a text matching Section (absent
when label, parent or sibling is missing); the stripped text of the
first span of class pages; the text of the div following an Abstract
heading; and the href lists produced by the two article-link CSS
selectors. -/
structure Doc where
  metas : List MetaTag
  titleText : Option String
  h1Text : Option String
  h2Text : Option String
  h3Text : Option String
  h4Text : Option String
  publishedParentText : Option String
  sectionSiblingText : Option String
  pagesSpanText : Option String
  abstractSiblingText : Option String
  selector1Links : List String
  selector2Links : List String
deriving DecidableEq

/-- A document on which every query comes back empty. -/
def emptyDoc : Doc :=
  ⟨[], none, none, none, none, none, none, none, none, none, [], []⟩

/-- soup.find of a meta tag with a given name attribute value. -/
def findMetaByName (doc : Doc) (n : String) : Option MetaTag :=
  doc.metas.find? (fun m => m.nameAttr == some n)

/-- soup.find of a meta tag with a given property attribute value. -/
def findMetaByProp (doc : Doc) (p : String) : Option MetaTag :=
  doc.metas.find? (fun m => m.propAttr == some p)

/-- tag['content']: raises KeyError when the attribute is absent. -/
def tagContent (m : MetaTag) : Except PyErr String :=
  match m.contentAttr with
  | some c => .ok c
  | none => .error .keyError

/-- extract_journal_name from app.py. -/
def extract_journal_name (doc : Doc) : Except PyErr String :=
  match findMetaByName doc "citation_journal_title" with
  | some m => tagContent m
  | none =>
    match findMetaByProp doc "og:site_name" with
    | some m => tagContent m
    | none => .ok "Journal Name Not Found"

/-- extract_paper_title from app.py: the og:title content is rejected when it
equals the journal name; then the citation_title meta, then the first h1. -/
def extract_paper_title (doc : Doc) : Except PyErr String :=
  let rest : Except PyErr String :=
    match findMetaByName doc "citation_title" with
    | some m => tagContent m
    | none =>
      match doc.h1Text with
      | some t => .ok t
      | none => .ok "Paper Title Not Found"
  match findMetaByProp doc "og:title" with
  | some m => do
    let c ← tagContent m
    let jn ← extract_journal_name doc
    if c ≠ jn then return c else rest
  | none => rest

/-- extract_full_authors from app.py: all citation_author meta contents
joined with a comma and space, in document order. -/
def extract_full_authors (doc : Doc) : Except PyErr String := do
  let authors := doc.metas.filter (fun m => m.nameAttr == some "citation_author")
  if authors.isEmpty then return "Authors Not Found"
  else
    let contents ← authors.mapM tagContent
    return String.intercalate ", " contents

/-- The result of extract_publication_date: a year string and an optional
three-letter month. -/
structure DateInfo where
  year : String
  month : Option String
deriving DecidableEq

/-- The month abbreviation list of app.py. -/
def monthAbbrList : List String :=
  ["Jan", "Feb", "Mar", "Apr", "May", "Jun", "Jul", "Aug", "Sep", "Oct", "Nov", "Dec"]

/-- extract_publication_date from app.py.  The visible-text branch is wrapped
in a try/except in the source, so its failures only fall through to the meta
branch; the meta branch is NOT wrapped, so int() on a non-numeric month
segment (ValueError) and an out-of-range month index (IndexError) propagate,
as does the content lookup (KeyError). -/
def extract_publication_date (doc : Doc) : Except PyErr DateInfo :=
  let visible : Option DateInfo :=
    match doc.publishedParentText with
    | some containerText =>
      match searchGen mdyMatchAt containerText.data with
      | some (monthWord, _, year) =>
        some ⟨year, some (pyTake (pyCapitalize monthWord) 3)⟩
      | none => none
    | none => none
  match visible with
  | some di => .ok di
  | none =>
    match findMetaByName doc "citation_publication_date" with
    | some m => do
      let dateStr ← tagContent m
      let parts := pySplitOn dateStr "/"
      let year := parts.headD ""
      let monthNum ← if parts.length > 1 then pyInt (parts.getD 1 "") else pure (1 : Int)
      let monthAbbr ← pyListGetStr monthAbbrList (monthNum - 1)
      return ⟨year, some monthAbbr⟩
    | none => .ok ⟨"Year Not Found", none⟩

/-- extract_type from app.py: the whole body is wrapped in a try/except, so
the function never raises; the document field holds the sibling text when
the Section label chain succeeds. -/
def extract_type (doc : Doc) : String :=
  match doc.sectionSiblingText with
  | some t => t
  | none => "Type Not Found"

/-- The meta-tag part of extract_volume (the code after the pre-scraped
check): citation_volume and citation_issue contents combined under Python
truthiness. -/
def volumeFromMeta (doc : Doc) : Except PyErr String := do
  let vol : Option String ←
    match findMetaByName doc "citation_volume" with
    | some m => do
      let c ← tagContent m
      pure (some c)
    | none => pure none
  let iss : Option String ←
    match findMetaByName doc "citation_issue" with
    | some m => do
      let c ← tagContent m
      pure (some c)
    | none => pure none
  if optTruthy vol ∧ optTruthy iss then
    return (vol.getD "" ++ "(" ++ iss.getD "" ++ ")")
  else if optTruthy vol then return vol.getD ""
  else return "Volume Not Found"

/-- extract_volume from app.py: a truthy pre-scraped string different from
the TOC sentinel wins outright; otherwise the meta tags are consulted. -/
def extract_volume (doc : Doc) (preScrapedVolumeIssue : Option String) :
    Except PyErr String :=
  match preScrapedVolumeIssue with
  | some s =>
    if s ≠ "" ∧ s ≠ "Volume Not Found (from TOC)" then .ok s
    else volumeFromMeta doc
  | none => volumeFromMeta doc

/-- extract_page from app.py: when both page meta tags exist, their contents
are combined under Python truthiness; otherwise (and when a content is
falsy) the visible pages span is the fallback. -/
def extract_page (doc : Doc) : Except PyErr String :=
  let fallback : String :=
    match doc.pagesSpanText with
    | some t => t
    | none => "Page Not Found"
  match findMetaByName doc "citation_firstpage", findMetaByName doc "citation_lastpage" with
  | some fm, some lm => do
    let firstPage ← tagContent fm
    let lastPage ← tagContent lm
    if firstPage ≠ "" ∧ firstPage = lastPage then return firstPage
    else if firstPage ≠ "" ∧ lastPage ≠ "" then return (firstPage ++ "–" ++ lastPage)
    else return fallback
  | _, _ => .ok fallback

/-- extract_abstract from app.py. -/
def extract_abstract (doc : Doc) : Except PyErr String :=
  match findMetaByProp doc "og:description" with
  | some m => tagContent m
  | none =>
    match doc.abstractSiblingText with
    | some t => .ok t
    | none => .ok "Abstract Not Found"

/-- extract_keywords from app.py: semicolons are replaced by commas. -/
def extract_keywords (doc : Doc) : Except PyErr String :=
  match findMetaByName doc "citation_keywords" with
  | some m => do
    let c ← tagContent m
    return String.mk (c.data.map (fun ch => if ch = ';' then ',' else ch))
  | none => .ok "Keywords Not Found"

/-- extract_doi from app.py. -/
def extract_doi (doc : Doc) : Except PyErr String :=
  match findMetaByName doc "citation_doi" with
  | some m => tagContent m
  | none => .ok "DOI Not Found"

/-! ## Citation formatters of app.py -/

/-- The two citation styles the formatter accepts. -/
inductive CiteStyle where
  | apa
  | ieee
deriving DecidableEq

/-- The loop body of format_authors for one comma-separated name: split on
whitespace; an empty token list is skipped (continue); otherwise the last
token is the surname and each earlier token contributes its first character
followed by a period. -/
def formatOneName (nm : String) (style : CiteStyle) : Option String :=
  let parts := pySplitWs nm
  match parts with
  | [] => none
  | _ :: _ =>
    let lastName := parts.getLastD ""
    let firstInitials := parts.dropLast.map (fun p => pyTake p 1 ++ ".")
    match style with
    | .apa => some (lastName ++ ", " ++ String.intercalate " " firstInitials)
    | .ieee => some (String.intercalate " " firstInitials ++ " " ++ lastName)

/-- format_authors from app.py.  The argument may be None (falsy); a falsy or
sentinel author string yields the sentinel, as does an author list whose
every name was skipped. -/
def format_authors (authorVal : PyVal) (style : CiteStyle) : String :=
  match authorVal with
  | .vNone => "Authors Not Found"
  | .vStr s =>
    if s = "" ∨ s = "Authors Not Found" then "Authors Not Found"
    else
      let authorList := pySplitOn s ", "
      let formattedNames := authorList.filterMap (fun nm => formatOneName nm style)
      if formattedNames.isEmpty then "Authors Not Found"
      else
        match style with
        | .apa =>
          if formattedNames.length > 1 then
            String.intercalate ", " formattedNames.dropLast ++ ", & " ++
              formattedNames.getLastD ""
          else formattedNames.headD ""
        | .ieee => String.intercalate " and " formattedNames

/-- The placeholder message of generate_apa_citation. -/
def apaPlaceholder : String := "APA Citation could not be generated (missing data)."

/-- The placeholder message of generate_ieee_citation. -/
def ieeePlaceholder : String := "IEEE Citation could not be generated (missing data)."

/-- The try-block body of generate_apa_citation, with dictionary lookups in
Python evaluation order; KeyError and TypeError escape to the caller. -/
def apaBody (d : PyDict) : Except PyErr String := do
  let fa ← pyGetItem d "Full Authors"
  let authorsApa := format_authors fa .apa
  let yearV ← pyGetItem d "Year Published"
  let titleV ← pyGetItem d "Paper Title"
  let titleDot ← pyAddStr titleV "."
  let parts := [authorsApa ++ ".", "(" ++ pyFStr yearV ++ ").", titleDot]
  let jnV ← pyGetItem d "Journal Name"
  let volV ← pyGetItem d "Volume"
  let journalInfo := pyFStr jnV ++ ", " ++ pyFStr volV
  let pageV ← pyGetItem d "Page"
  let journalInfo2 :=
    if pageV ≠ .vStr "Page Not Found" then journalInfo ++ ", " ++ pyFStr pageV
    else journalInfo
  let doiV ← pyGetItem d "raw_doi"
  return String.intercalate " "
    (parts ++ [journalInfo2 ++ ".", "https://doi.org/" ++ pyFStr doiV])

/-- generate_apa_citation from app.py: the body with KeyError and TypeError
downgraded to the fixed placeholder message. -/
def generate_apa_citation (d : PyDict) : Except PyErr String :=
  match apaBody d with
  | .ok s => .ok s
  | .error .keyError => .ok apaPlaceholder
  | .error .typeError => .ok apaPlaceholder
  | .error e => .error e

/-- The try-block body of generate_ieee_citation, with dictionary lookups in
Python evaluation order; re.search on a None volume raises TypeError; the
year is looked up only when the month value is truthy. -/
def ieeeBody (d : PyDict) : Except PyErr String := do
  let fa ← pyGetItem d "Full Authors"
  let authorsIeee := format_authors fa .ieee
  let volV ← pyGetItem d "Volume"
  let volStr ←
    match volV with
    | .vNone => (.error .typeError : Except PyErr String)
    | .vStr s => pure s
  let jnV ← pyGetItem d "Journal Name"
  let journalPart :=
    match searchGen volIssMatchAt volStr.data with
    | some (v, i) => pyFStr jnV ++ ", vol. " ++ v ++ ", no. " ++ i ++ ","
    | none => pyFStr jnV ++ ", vol. " ++ volStr ++ ","
  let titleV ← pyGetItem d "Paper Title"
  let parts := [authorsIeee ++ ",", "\"" ++ pyFStr titleV ++ ",\"", journalPart]
  let pageV ← pyGetItem d "Page"
  let parts2 :=
    if pageV ≠ .vStr "Page Not Found" then parts ++ ["pp. " ++ pyFStr pageV ++ ","]
    else parts
  let monthV ← pyGetItem d "month"
  let parts3 ←
    if pyTruthy monthV then do
      let yearV ← pyGetItem d "Year Published"
      if pyTruthy yearV then
        pure (parts2 ++ [pyFStr monthV ++ ". " ++ pyFStr yearV ++ ","])
      else pure parts2
    else pure parts2
  let doiV ← pyGetItem d "raw_doi"
  return String.intercalate " " (parts3 ++ ["doi: " ++ pyFStr doiV ++ "."])

/-- generate_ieee_citation from app.py: the body with KeyError and TypeError
downgraded to the fixed placeholder message. -/
def generate_ieee_citation (d : PyDict) : Except PyErr String :=
  match ieeeBody d with
  | .ok s => .ok s
  | .error .keyError => .ok ieeePlaceholder
  | .error .typeError => .ok ieeePlaceholder
  | .error e => .error e

/-! ## The article scraper, link discovery and TOC volume inference -/

/-- The network, as the scraper sees it: for each URL, either a parsed
document (successful fetch of a success-status page) or nothing (transport
error or raise_for_status).  Fetches are deterministic within one batch. -/
structure World where
  page : String → Option Doc

/-- A month option as the Python value stored under the month key. -/
def monthVal : Option String → PyVal
  | none => .vNone
  | some s => .vStr s

/-- The successful body of scrape_website: run the extractors over the
fetched document and assemble the scraped-data dictionary in the insertion
order of the source, then attach month, raw_doi and the two citations. -/
def buildScrapedData (url : String) (doc : Doc) (preVol : Option String) :
    Except PyErr PyDict := do
  let dateInfo ← extract_publication_date doc
  let rawDoi ← extract_doi doc
  let jn ← extract_journal_name doc
  let pt ← extract_paper_title doc
  let fa ← extract_full_authors doc
  let vol ← extract_volume doc preVol
  let ty := extract_type doc
  let pg ← extract_page doc
  let ab ← extract_abstract doc
  let kw ← extract_keywords doc
  let doiUpdated :=
    if rawDoi ≠ "DOI Not Found" then "https://doi.org/" ++ rawDoi else "DOI Not Found"
  let d1 : PyDict :=
    [("Website Link", .vStr url), ("Journal Name", .vStr jn), ("Paper Title", .vStr pt),
     ("Full Authors", .vStr fa), ("Year Published", .vStr dateInfo.year),
     ("Volume", .vStr vol), ("Type", .vStr ty), ("Page", .vStr pg),
     ("Abstract", .vStr ab), ("Keywords", .vStr kw),
     ("DOI/Link Updated", .vStr doiUpdated),
     ("month", monthVal dateInfo.month), ("raw_doi", .vStr rawDoi)]
  let apa ← generate_apa_citation d1
  let d2 := d1 ++ [("APA Citation", .vStr apa)]
  let ieee ← generate_ieee_citation d2
  return d2 ++ [("Citation IEEE", .vStr ieee)]

/-- scrape_website from app.py: a failed fetch, or any exception escaping an
extractor, is caught by the blanket except and reported as no record. -/
def scrape_website (w : World) (url : String) (preVol : Option String) :
    Option PyDict :=
  match w.page url with
  | none => none
  | some doc =>
    match buildScrapedData url doc preVol with
    | .ok d => some d
    | .error _ => none

/-- discover_article_links from app.py: first selector with at least one
link wins; fetch failure or no match yields the empty list. -/
def discover_article_links (w : World) (tocUrl : String) : List String :=
  match w.page tocUrl with
  | none => []
  | some doc =>
    if ¬doc.selector1Links.isEmpty then doc.selector1Links
    else if ¬doc.selector2Links.isEmpty then doc.selector2Links
    else []

/-- _extract_volume_from_toc_page from app.py: scan the first title, h1, h2,
h3, h4 tag texts in order; the first successful volume/issue parse wins;
fetch failure or no parse yields the TOC sentinel. -/
def extract_volume_from_toc_page (w : World) (tocUrl : String) : String :=
  match w.page tocUrl with
  | none => "Volume Not Found (from TOC)"
  | some doc =>
    let tryTag : Option String → Option String := fun t =>
      match t with
      | some text => parse_volume_issue_string text
      | none => none
    match [doc.titleText, doc.h1Text, doc.h2Text, doc.h3Text, doc.h4Text].findSome? tryTag with
    | some p => p
    | none => "Volume Not Found (from TOC)"

/-! ## The persistent store of database.py -/

/-- One row of the articles table.  The column named Type is articleType
here; websiteLink is the primary-key column Website Link. -/
structure Row where
  websiteLink : PyVal
  journalName : PyVal
  paperTitle : PyVal
  fullAuthors : PyVal
  yearPublished : PyVal
  volume : PyVal
  articleType : PyVal
  page : PyVal
  abstract : PyVal
  keywords : PyVal
  doiLinkUpdated : PyVal
  apaCitation : PyVal
  citationIeee : PyVal
  remarks : PyVal
  lastValidated : PyVal
deriving DecidableEq

/-- The articles table, as a list of rows. -/
abbrev Store := List Row

/-- The row that add_or_update_article inserts for a given dictionary: the
fourteen listed columns via .get (absent keys become NULL, the Remarks
default is the not-checked marker), and last_validated, which is not in the
column list, receives NULL. -/
def mkRowFromDict (d : PyDict) : Row :=
  { websiteLink := pyGetD d "Website Link" .vNone,
    journalName := pyGetD d "Journal Name" .vNone,
    paperTitle := pyGetD d "Paper Title" .vNone,
    fullAuthors := pyGetD d "Full Authors" .vNone,
    yearPublished := pyGetD d "Year Published" .vNone,
    volume := pyGetD d "Volume" .vNone,
    articleType := pyGetD d "Type" .vNone,
    page := pyGetD d "Page" .vNone,
    abstract := pyGetD d "Abstract" .vNone,
    keywords := pyGetD d "Keywords" .vNone,
    doiLinkUpdated := pyGetD d "DOI/Link Updated" .vNone,
    apaCitation := pyGetD d "APA Citation" .vNone,
    citationIeee := pyGetD d "Citation IEEE" .vNone,
    remarks := pyGetD d "Remarks" (.vStr "❓ Not Checked"),
    lastValidated := .vNone }

/-- add_or_update_article from database.py: INSERT OR REPLACE keyed on the
Website Link primary key.  A conflicting row (same non-NULL key) is deleted
and the new row inserted; a NULL key never conflicts in SQLite. -/
def add_or_update_article (d : PyDict) (s : Store) : Store :=
  let r := mkRowFromDict d
  if r.websiteLink = .vNone then s ++ [r]
  else s.filter (fun row => row.websiteLink ≠ r.websiteLink) ++ [r]

/-- update_article_remark from database.py: set Remarks and last_validated
on every row whose Website Link equals the given link. -/
def update_article_remark (link remark today : String) (s : Store) : Store :=
  s.map (fun r =>
    if r.websiteLink = .vStr link then
      { r with remarks := .vStr remark, lastValidated := .vStr today }
    else r)

/-! ## The batch processor process_links of app.py -/

/-- Python set.add on the membership-only set model. -/
def pyInsertSet (v : PyVal) (s : List PyVal) : List PyVal :=
  if v ∈ s then s else s ++ [v]

/-- list(dict.fromkeys(links)): deduplicate preserving first-occurrence order. -/
def dedupFirstAux (seen : List String) : List String → List String
  | [] => []
  | x :: xs =>
    if x ∈ seen then dedupFirstAux seen xs
    else x :: dedupFirstAux (seen ++ [x]) xs

/-- Deduplication preserving first-occurrence order. -/
def dedupFirst (l : List String) : List String :=
  dedupFirstAux [] l

/-- The mutable state of one process_links run: the two counters, the
failed-links list, the scraped_urls set (seeded from the pre-batch store
and grown after every successful scrape) and the store itself. -/
structure BatchState where
  newCount : Nat
  updatedCount : Nat
  failedLinks : List String
  scrapedUrls : List PyVal
  store : Store

/-- The shared per-article body of process_links (it appears twice in the
source, once in the discovered-links inner loop and once in the
single-article branch): membership in scraped_urls is tested, the scrape is
attempted, and on success the record is upserted, the matching counter
incremented and the URL added to scraped_urls; on failure the URL joins the
failed list. -/
def handleArticle (w : World) (preVol : Option String) (st : BatchState)
    (artLink : String) : BatchState :=
  let isUpdate := (PyVal.vStr artLink) ∈ st.scrapedUrls
  match scrape_website w artLink preVol with
  | some result =>
    { st with
      store := add_or_update_article result st.store,
      updatedCount := if isUpdate then st.updatedCount + 1 else st.updatedCount,
      newCount := if isUpdate then st.newCount else st.newCount + 1,
      scrapedUrls := pyInsertSet (.vStr artLink) st.scrapedUrls }
  | none => { st with failedLinks := st.failedLinks ++ [artLink] }

/-- The loop body of process_links for one submitted link: a link containing
/issue/view/ is a collection link (TOC volume inference, link discovery,
inner loop over the discovered links, or a Volume Link failure entry when
none are discovered); any other link is scraped as a single article. -/
def handleLink (w : World) (st : BatchState) (link : String) : BatchState :=
  if strContains link "/issue/view/" then
    let preScraped := extract_volume_from_toc_page w link
    let preVol : Option String :=
      if preScraped = "Volume Not Found (from TOC)" then none else some preScraped
    let discovered := discover_article_links w link
    if discovered.isEmpty then
      { st with failedLinks := st.failedLinks ++ ["(Volume Link) " ++ link] }
    else discovered.foldl (handleArticle w preVol) st
  else handleArticle w none st link

/-- The summary dictionary process_links returns. -/
structure Summary where
  newCount : Nat
  updatedCount : Nat
  failedLinks : List String
deriving DecidableEq

/-- process_links from app.py, with the store passed and returned
explicitly in place of the module-level database. -/
def process_links (w : World) (linksToProcess : List String) (store : Store) :
    Summary × Store :=
  let scrapedUrls := store.map (fun r => r.websiteLink)
  let initSt : BatchState :=
    { newCount := 0, updatedCount := 0, failedLinks := [],
      scrapedUrls := scrapedUrls, store := store }
  let finalSt := (dedupFirst linksToProcess).foldl (handleLink w) initSt
  (⟨finalSt.newCount, finalSt.updatedCount, finalSt.failedLinks⟩, finalSt.store)

/-! ## The DOI validator of app.py (tab4 loop body) -/

/-- The outcome of requests.head with redirects followed: status code, the
Content-Type header (possibly absent) and the final resolved URL. -/
structure HeadResponse where
  statusCode : Nat
  contentType : Option String
  finalUrl : String
deriving DecidableEq

/-- The URL normalization the validator applies before comparing: delete
every occurrence of the https:// and http:// substrings and of the www.
substring, then strip all leading and trailing slashes. -/
def normalizeUrl (s : String) : String :=
  pyStripSlashes (pyDeleteAll (pyDeleteAll (pyDeleteAll s "https://") "http://") "www.")

/-- The remark computed by one iteration of the validator loop, given the
head-request outcome (None models a raised RequestException). -/
def classify_remark (resp : Option HeadResponse) (originalUrl : String) : String :=
  match resp with
  | none => "❌ Link Error"
  | some r =>
    if r.statusCode = 404 then "❌ Not Found (404)"
    else if strContains (r.contentType.getD "") "application/pdf" then "📄 PDF"
    else if normalizeUrl r.finalUrl = normalizeUrl originalUrl then "✔️ Match"
    else "⚠️ Mismatch"

/-- One full validator iteration: compute the remark and write it back with
the validation date. -/
def validate_article (resp : Option HeadResponse) (originalUrl today : String)
    (s : Store) : Store :=
  update_article_remark originalUrl (classify_remark resp originalUrl) today s

/-! ## Theorems -/

/-- A document whose citation_journal_title meta tag has no content attribute. -/
def docNoContentAttr : Doc :=
  { emptyDoc with metas := [⟨some "citation_journal_title", none, none⟩] }

/-- A document whose citation_publication_date meta value has a non-numeric
month segment. -/
def docWordMonth : Doc :=
  { emptyDoc with metas := [⟨some "citation_publication_date", none, some "2024/July"⟩] }

/-- C1: the never-raises contract fails on the code.  On a document whose
matched citation_journal_title meta tag lacks a content attribute the
journal-name extractor raises KeyError (tag subscripting), and on a document
whose citation_publication_date meta value has a non-numeric month segment
the publication-date extractor raises ValueError (the int conversion in the
unguarded meta fallback), instead of returning the sentinels the claim
promises. -/
theorem extractors_raise_on_malformed_documents :
    extract_journal_name docNoContentAttr = .error .keyError ∧
    extract_publication_date docWordMonth = .error .valueError := by
  constructor <;> rfl

/-- C7 counterexample: the parser does not strip all internal whitespace from
a matched issue token.  The issue pattern may capture a tab between the two
token parts, and the code removes only space characters, so the tab survives
in the rendered result, where the claim demands 1(2A). -/
theorem issue_token_keeps_internal_tab :
    parse_volume_issue_string "Vol 1 No 2\tA" = some "1(2\tA)" ∧
    parse_volume_issue_string "Vol 1 No 2\tA" ≠ some "1(2A)" := by
  constructor
  · rfl
  · decide

/-- C7 as amended: the volume pattern is Volume/Vol (case-insensitive,
optional period) then digits; the issue pattern is Issue/Iss/No then an
alphanumeric token optionally followed by one more whitespace-separated
token; internal SPACE characters (only U+0020, not other whitespace) are
removed from the matched issue token; the rendering is volume(issue) when
both matched, the bare volume when only the volume matched, and no result
when no volume matched.  The stated examples hold: Vol. 5 No. 2 gives 5(2),
Volume 10 gives 10, Issue 3 alone gives no result. -/
theorem parse_volume_issue_characterized :
    parse_volume_issue_string "Vol. 5 No. 2" = some "5(2)" ∧
    parse_volume_issue_string "Volume 10" = some "10" ∧
    parse_volume_issue_string "Issue 3" = none ∧
    parse_volume_issue_string "Vol. 5 Issue 2 A" = some "5(2A)" ∧
    (∀ text : String, find_pattern [volMatchAt] text = none →
      parse_volume_issue_string text = none) ∧
    (∀ text v, find_pattern [volMatchAt] text = some v → v ≠ "" →
      find_pattern [issMatchAt] text = none →
      parse_volume_issue_string text = some v) ∧
    (∀ text v i, find_pattern [volMatchAt] text = some v → v ≠ "" →
      find_pattern [issMatchAt] text = some i → i ≠ "" →
      parse_volume_issue_string text =
        some (v ++ "(" ++ String.mk (i.data.filter (fun c => c ≠ ' ')) ++ ")")) := by
  refine ⟨rfl, rfl, rfl, rfl, ?_, ?_, ?_⟩
  · intro text hv
    simp [parse_volume_issue_string, hv, optTruthy]
  · intro text v hv hvne hi
    simp [parse_volume_issue_string, hv, hi, optTruthy, hvne]
  · intro text v i hv hvne hi hine
    simp [parse_volume_issue_string, hv, hi, optTruthy, hvne, hine]

/-- C7 witness: the amended characterization applied at a concrete input. -/
theorem parse_volume_issue_characterized_witness :
    parse_volume_issue_string "Vol 7 No 3" = some "7(3)" :=
  parse_volume_issue_characterized.2.2.2.2.2.2 "Vol 7 No 3" "7" "3"
    (by decide) (by decide) (by decide) (by decide)

/-- The content of the first meta tag of the given name, when that tag exists
and carries a content attribute. -/
def metaContentOf (doc : Doc) (n : String) : Option String :=
  (findMetaByName doc n).bind (fun m => m.contentAttr)

/-- The first meta tag of the given name, when it exists, carries a content
attribute (so subscripting it cannot raise). -/
def metaContentWellFormed (doc : Doc) (n : String) : Bool :=
  match findMetaByName doc n with
  | some m => m.contentAttr.isSome
  | none => true

/-- Modelled from the spec volume rendering rule of section 3, under the
amended reading in which a present-but-empty content value counts as absent
(Python truthiness): volume(issue) when both are known, the bare volume when
only the volume is, the sentinel otherwise. -/
def specVolumeRender (vol iss : Option String) : String :=
  if optTruthy vol ∧ optTruthy iss then vol.getD "" ++ "(" ++ iss.getD "" ++ ")"
  else if optTruthy vol then vol.getD ""
  else "Volume Not Found"

/-- The meta path of extract_volume agrees with the spec rendering rule on
documents whose volume and issue meta tags are well formed. -/
theorem volumeFromMeta_wellFormed (doc : Doc)
    (h1 : metaContentWellFormed doc "citation_volume" = true)
    (h2 : metaContentWellFormed doc "citation_issue" = true) :
    volumeFromMeta doc =
      .ok (specVolumeRender (metaContentOf doc "citation_volume")
        (metaContentOf doc "citation_issue")) := by
  unfold metaContentWellFormed at h1 h2
  cases hv : findMetaByName doc "citation_volume" with
  | none =>
    cases hi : findMetaByName doc "citation_issue" with
    | none =>
      simp [volumeFromMeta, hv, hi, metaContentOf, specVolumeRender, optTruthy]
    | some mi =>
      rw [hi] at h2
      obtain ⟨ci, hci⟩ := Option.isSome_iff_exists.mp h2
      simp [volumeFromMeta, hv, hi, metaContentOf, specVolumeRender, tagContent, hci,
        optTruthy]
  | some mv =>
    rw [hv] at h1
    obtain ⟨cv, hcv⟩ := Option.isSome_iff_exists.mp h1
    cases hi : findMetaByName doc "citation_issue" with
    | none =>
      simp only [volumeFromMeta, hv, hi, metaContentOf, specVolumeRender, tagContent, hcv,
        optTruthy, exceptBindOk, exceptBindErr, exceptPure, Option.some_bind, Option.none_bind,
        Option.getD_some]
      split_ifs <;> simp_all
    | some mi =>
      rw [hi] at h2
      obtain ⟨ci, hci⟩ := Option.isSome_iff_exists.mp h2
      simp only [volumeFromMeta, hv, hi, metaContentOf, specVolumeRender, tagContent, hcv,
        hci, optTruthy, exceptBindOk, exceptBindErr, exceptPure, Option.some_bind,
        Option.none_bind, Option.getD_some]
      split_ifs <;> simp_all

/-- C5 as amended: a supplied pre-scraped string that is non-empty and not
the TOC sentinel is returned unchanged; when the pre-scraped string is
absent, empty or the TOC sentinel, and the page's volume and issue meta tags
are well formed (each carries a content attribute when present), the result
follows the spec rendering rule with empty content counting as absent. -/
theorem extract_volume_characterized :
    (∀ doc s, s ≠ "" → s ≠ "Volume Not Found (from TOC)" →
      extract_volume doc (some s) = .ok s) ∧
    (∀ doc pre,
      pre = none ∨ pre = some "" ∨ pre = some "Volume Not Found (from TOC)" →
      metaContentWellFormed doc "citation_volume" = true →
      metaContentWellFormed doc "citation_issue" = true →
      extract_volume doc pre =
        .ok (specVolumeRender (metaContentOf doc "citation_volume")
          (metaContentOf doc "citation_issue"))) := by
  constructor
  · intro doc s hne hsent
    simp [extract_volume, hne, hsent]
  · intro doc pre hpre h1 h2
    rcases hpre with h | h | h <;> subst h <;>
      simp [extract_volume, volumeFromMeta_wellFormed doc h1 h2]

/-- A document carrying only a citation_volume meta tag with content 7. -/
def docVol7 : Doc :=
  { emptyDoc with metas := [⟨some "citation_volume", none, some "7"⟩] }

/-- A document whose citation_volume meta tag has no content attribute. -/
def docVolNoContent : Doc :=
  { emptyDoc with metas := [⟨some "citation_volume", none, none⟩] }

/-- C5 counterexample: a supplied empty pre-scraped string is not the TOC
sentinel, yet it is not returned unchanged (Python truthiness sends the code
to the meta tags); and on a volume meta tag without content the extractor
raises instead of producing the sentinel the claim's otherwise-branch
demands. -/
theorem extract_volume_empty_prescraped_ignored :
    extract_volume docVol7 (some "") = .ok "7" ∧
    extract_volume docVol7 (some "") ≠ .ok "" ∧
    extract_volume docVolNoContent none = .error .keyError := by
  refine ⟨rfl, by decide, rfl⟩

/-- C5 witness: the amended claim applied at concrete inputs. -/
theorem extract_volume_characterized_witness :
    extract_volume docVol7 (some "12(3)") = .ok "12(3)" ∧
    extract_volume docVol7 none = .ok "7" :=
  ⟨extract_volume_characterized.1 docVol7 "12(3)" (by decide) (by decide),
   extract_volume_characterized.2 docVol7 none (Or.inl rfl) (by decide) (by decide)⟩

/-- Modelled from the spec page-range rule of section 3, under the amended
reading in which a present-but-empty content value falls through to the
visible-span fallback: identical first and last pages collapse to one, a
different pair is joined with an en dash, and otherwise the visible pages
span text (or the sentinel) is used. -/
def specPageRender (first last spanText : Option String) : String :=
  match first, last with
  | some f, some l =>
    if f ≠ "" ∧ f = l then f
    else if f ≠ "" ∧ l ≠ "" then f ++ "–" ++ l
    else spanText.getD "Page Not Found"
  | _, _ => spanText.getD "Page Not Found"

/-- C6 as amended: on documents whose firstpage and lastpage meta tags are
well formed, the page extractor renders the collapsed page, the en-dash
range, or the span/sentinel fallback per the spec rule, with an empty
content value treated like an absent one (Python truthiness). -/
theorem extract_page_characterized :
    ∀ doc,
      metaContentWellFormed doc "citation_firstpage" = true →
      metaContentWellFormed doc "citation_lastpage" = true →
      extract_page doc =
        .ok (specPageRender (metaContentOf doc "citation_firstpage")
          (metaContentOf doc "citation_lastpage") doc.pagesSpanText) := by
  intro doc h1 h2
  unfold metaContentWellFormed at h1 h2
  cases hf : findMetaByName doc "citation_firstpage" with
  | none =>
    cases hl : findMetaByName doc "citation_lastpage" with
    | none =>
      cases hs : doc.pagesSpanText <;>
        simp [extract_page, hf, hl, hs, metaContentOf, specPageRender]
    | some ml =>
      cases hs : doc.pagesSpanText <;>
        simp [extract_page, hf, hl, hs, metaContentOf, specPageRender]
  | some mf =>
    rw [hf] at h1
    obtain ⟨cf, hcf⟩ := Option.isSome_iff_exists.mp h1
    cases hl : findMetaByName doc "citation_lastpage" with
    | none =>
      cases hs : doc.pagesSpanText <;>
        simp [extract_page, hf, hl, hs, metaContentOf, specPageRender, hcf]
    | some ml =>
      rw [hl] at h2
      obtain ⟨cl, hcl⟩ := Option.isSome_iff_exists.mp h2
      cases hs : doc.pagesSpanText <;>
        · simp only [extract_page, hf, hl, hs, metaContentOf, specPageRender, tagContent,
            hcf, hcl, exceptBindOk, exceptBindErr, exceptPure, Option.some_bind,
            Option.getD_some, Option.getD_none]
          split_ifs <;> rfl

/-- A document whose two page meta tags both carry an empty content value. -/
def docEmptyPages : Doc :=
  { emptyDoc with metas :=
    [⟨some "citation_firstpage", none, some ""⟩,
     ⟨some "citation_lastpage", none, some ""⟩] }

/-- A document whose firstpage meta tag lacks content while the lastpage one
has it. -/
def docPageNoContent : Doc :=
  { emptyDoc with metas :=
    [⟨some "citation_firstpage", none, none⟩,
     ⟨some "citation_lastpage", none, some "5"⟩] }

/-- C6 counterexample: with both page meta values present and identical but
empty, the claim demands that identical string (the empty string) back, yet
the code falls through to the sentinel; and with the firstpage content
attribute missing the claim demands the visible-element fallback, yet the
code raises. -/
theorem extract_page_empty_values_fall_through :
    extract_page docEmptyPages = .ok "Page Not Found" ∧
    extract_page docEmptyPages ≠ .ok "" ∧
    extract_page docPageNoContent = .error .keyError := by
  refine ⟨rfl, by decide, rfl⟩

/-- A document with a normal page range in its meta tags. -/
def docPages96 : Doc :=
  { emptyDoc with metas :=
    [⟨some "citation_firstpage", none, some "96"⟩,
     ⟨some "citation_lastpage", none, some "108"⟩] }

/-- C6 witness: the amended claim applied at a concrete document. -/
theorem extract_page_characterized_witness :
    extract_page docPages96 = .ok "96–108" :=
  extract_page_characterized docPages96 (by decide) (by decide)

/-- Modelled from the spec normalization for the validator match comparison:
strip the scheme (one leading https:// or http://), then one leading www.,
then one trailing slash. -/
def specNormalizeUrl (s : String) : String :=
  let l1 :=
    match dropPre "https://".data s.data with
    | some r => r
    | none =>
      match dropPre "http://".data s.data with
      | some r => r
      | none => s.data
  let l2 :=
    match dropPre "www.".data l1 with
    | some r => r
    | none => l1
  match l2.reverse with
  | '/' :: r => String.mk r.reverse
  | _ => String.mk l2

/-- The original URL of the C3 counterexample record. -/
def c3OriginalUrl : String := "http://journal.example/page"

/-- The final resolved URL of the C3 counterexample response: it differs from
the original by an internal www. segment in the path. -/
def c3FinalUrl : String := "https://journal.example/www.page"

/-- C3 counterexample: the code normalization deletes EVERY occurrence of
www. (and of the scheme substrings), not just a leading one.  A response
resolving to a URL with an internal www. path segment is classified as a
match although the two URLs differ under the spec normalization (leading
strips only), under which the claim demands the mismatch classification. -/
theorem validator_match_not_leading_strip :
    classify_remark (some ⟨200, some "text/html", c3FinalUrl⟩) c3OriginalUrl = "✔️ Match" ∧
    specNormalizeUrl c3FinalUrl ≠ specNormalizeUrl c3OriginalUrl := by
  refine ⟨rfl, by decide⟩

/-- C3 as amended: the stored remark classification, with the actual
normalization: every occurrence of https://, http:// and www. is deleted and
all leading and trailing slashes stripped, on both URLs.  The 404 check has
first priority, the PDF content-type check second (so PDF wins over the URL
comparison), then the normalized equality decides match against mismatch; a
transport failure is the link-error remark. -/
theorem classify_remark_characterized :
    ∀ (originalUrl : String) (r : HeadResponse),
      classify_remark none originalUrl = "❌ Link Error" ∧
      (classify_remark (some r) originalUrl = "❌ Not Found (404)" ↔
        r.statusCode = 404) ∧
      (classify_remark (some r) originalUrl = "📄 PDF" ↔
        r.statusCode ≠ 404 ∧ strContains (r.contentType.getD "") "application/pdf" = true) ∧
      (classify_remark (some r) originalUrl = "✔️ Match" ↔
        r.statusCode ≠ 404 ∧ strContains (r.contentType.getD "") "application/pdf" = false ∧
        normalizeUrl r.finalUrl = normalizeUrl originalUrl) ∧
      (classify_remark (some r) originalUrl = "⚠️ Mismatch" ↔
        r.statusCode ≠ 404 ∧ strContains (r.contentType.getD "") "application/pdf" = false ∧
        normalizeUrl r.finalUrl ≠ normalizeUrl originalUrl) := by
  intro originalUrl r
  refine ⟨rfl, ?_, ?_, ?_, ?_⟩ <;>
    · simp only [classify_remark]
      split_ifs <;> simp_all

/-- Rows kept by the delete-conflicting-key filter never match that key. -/
theorem filter_key_of_filter_ne (s : Store) (u : String) :
    (s.filter (fun row => row.websiteLink ≠ PyVal.vStr u)).filter
      (fun r => r.websiteLink = PyVal.vStr u) = [] := by
  rw [List.filter_eq_nil_iff]
  intro a ha
  have h1 := List.of_mem_filter ha
  simp at h1 ⊢
  exact h1

/-- Deleting rows of a different key leaves the rows of this key unchanged. -/
theorem filter_key_filter_ne_other (s : Store) (u : String) (v : PyVal)
    (hv : v ≠ .vStr u) :
    (s.filter (fun row => row.websiteLink ≠ v)).filter
      (fun r => r.websiteLink = PyVal.vStr u) =
      s.filter (fun r => r.websiteLink = PyVal.vStr u) := by
  rw [List.filter_filter]
  apply List.filter_congr
  intro a _
  by_cases h : a.websiteLink = PyVal.vStr u
  · simp [h, Ne.symm hv]
  · simp [h]

/-- After an upsert of a dictionary whose Website Link is the string u, the
rows keyed u are exactly the newly built row. -/
theorem upsert_filter_key (s : Store) (d : PyDict) (u : String)
    (h : pyGetD d "Website Link" .vNone = .vStr u) :
    (add_or_update_article d s).filter (fun r => r.websiteLink = PyVal.vStr u) =
      [mkRowFromDict d] := by
  have hkey : (mkRowFromDict d).websiteLink = PyVal.vStr u := h
  simp only [add_or_update_article, hkey]
  rw [if_neg (by simp)]
  rw [List.filter_append, filter_key_of_filter_ne]
  simp [hkey]

/-- One upsert preserves the at-most-one-row-per-URL property. -/
theorem upsert_count_le_one (d : PyDict) (s : Store) (u : String)
    (h : (s.filter (fun r => r.websiteLink = PyVal.vStr u)).length ≤ 1) :
    ((add_or_update_article d s).filter
      (fun r => r.websiteLink = PyVal.vStr u)).length ≤ 1 := by
  unfold add_or_update_article
  by_cases hn : (mkRowFromDict d).websiteLink = PyVal.vNone
  · rw [if_pos hn, List.filter_append, List.length_append]
    have h0 : (([mkRowFromDict d] : Store).filter
        (fun r => r.websiteLink = PyVal.vStr u)).length = 0 := by
      simp [hn]
    omega
  · rw [if_neg hn, List.filter_append, List.length_append]
    by_cases he : (mkRowFromDict d).websiteLink = PyVal.vStr u
    · simp only [he, filter_key_of_filter_ne]
      simp [he]
    · rw [filter_key_filter_ne_other s u _ he]
      have h0 : (([mkRowFromDict d] : Store).filter
          (fun r => r.websiteLink = PyVal.vStr u)).length = 0 := by
        simp [he]
      omega

/-- Any sequence of upserts starting from a store with at most one row per
URL keeps at most one row per URL. -/
theorem foldl_upsert_count (ds : List PyDict) :
    ∀ s : Store,
      (∀ u, (s.filter (fun r => r.websiteLink = PyVal.vStr u)).length ≤ 1) →
      ∀ u, ((ds.foldl (fun s d => add_or_update_article d s) s).filter
        (fun r => r.websiteLink = PyVal.vStr u)).length ≤ 1 := by
  induction ds with
  | nil => intro s h u; exact h u
  | cons d t ih =>
    intro s h u
    exact ih (add_or_update_article d s) (fun v => upsert_count_le_one d s v (h v)) u

/-- C4: over every sequence of upserts from the empty store the store holds
at most one row per URL at any time, and upserting two dictionaries with the
same Website Link string in sequence leaves exactly one row for that URL,
namely the row built entirely from the second dictionary (full replacement,
not field merge).  add_or_update_article is a total function, so a
resubmission is never an error. -/
theorem store_key_unique_and_idempotent_upsert :
    (∀ (ds : List PyDict) (u : String),
      ((ds.foldl (fun s d => add_or_update_article d s) ([] : Store)).filter
        (fun r => r.websiteLink = PyVal.vStr u)).length ≤ 1) ∧
    (∀ (s : Store) (d1 d2 : PyDict) (u : String),
      pyGetD d1 "Website Link" .vNone = .vStr u →
      pyGetD d2 "Website Link" .vNone = .vStr u →
      (add_or_update_article d2 (add_or_update_article d1 s)).filter
        (fun r => r.websiteLink = PyVal.vStr u) = [mkRowFromDict d2]) := by
  constructor
  · intro ds u
    exact foldl_upsert_count ds [] (fun v => by simp) u
  · intro s d1 d2 u h1 h2
    exact upsert_filter_key (add_or_update_article d1 s) d2 u h2

/-- A first scrape result for the URL http://a/1. -/
def dictUrlA1 : PyDict :=
  [("Website Link", .vStr "http://a/1"), ("Paper Title", .vStr "first")]

/-- A second scrape result for the same URL with different field values. -/
def dictUrlA2 : PyDict :=
  [("Website Link", .vStr "http://a/1"), ("Paper Title", .vStr "second")]

/-- C4 witness: the claim applied at two concrete submissions of one URL. -/
theorem store_key_unique_and_idempotent_upsert_witness :
    (add_or_update_article dictUrlA2 (add_or_update_article dictUrlA1 [])).filter
      (fun r => r.websiteLink = PyVal.vStr "http://a/1") = [mkRowFromDict dictUrlA2] :=
  store_key_unique_and_idempotent_upsert.2 [] dictUrlA1 dictUrlA2 "http://a/1" rfl rfl

/-- pySplitOnFuel always produces at least one piece. -/
theorem pySplitOnFuel_ne_nil (sep : List Char) :
    ∀ (n : Nat) (s acc : List Char), pySplitOnFuel sep n s acc ≠ [] := by
  intro n
  induction n with
  | zero => intro s acc; simp [pySplitOnFuel]
  | succ n ih =>
    intro s acc
    cases s with
    | nil => simp [pySplitOnFuel]
    | cons c rest =>
      unfold pySplitOnFuel
      cases dropPre sep (c :: rest) with
      | none => simpa using ih rest (c :: acc)
      | some r2 => simp

/-- Python split never yields an empty list of pieces. -/
theorem pySplitOn_ne_nil (s sep : String) : pySplitOn s sep ≠ [] :=
  pySplitOnFuel_ne_nil sep.data s.data.length s.data []

/-- filterMap over elements where the function always succeeds is a map. -/
theorem filterMap_all_some {α β : Type} (g : α → Option β) (f : α → β) (l : List α)
    (h : ∀ a ∈ l, g a = some (f a)) : l.filterMap g = l.map f := by
  induction l with
  | nil => rfl
  | cons a t ih =>
    rw [List.filterMap_cons, h a (by simp), List.map_cons,
      ih (fun x hx => h x (by simp [hx]))]

/-- Modelled from the spec author-name rule, APA side: the last
whitespace-separated token is the surname, each earlier token contributes
its first letter followed by a period, rendered Surname, I. I. (the spec
template Surname, I.I. leaves the separator between initials schematic; the
initials are space-separated). -/
def specApaName (nm : String) : String :=
  let toks := pySplitWs nm
  toks.getLastD "" ++ ", " ++
    String.intercalate " " (toks.dropLast.map (fun t => pyTake t 1 ++ "."))

/-- Modelled from the spec author-name rule, IEEE side: I. I. Surname. -/
def specIeeeName (nm : String) : String :=
  let toks := pySplitWs nm
  String.intercalate " " (toks.dropLast.map (fun t => pyTake t 1 ++ ".")) ++ " " ++
    toks.getLastD ""

/-- Modelled from the spec: split the display string on comma-space, render
each name APA style, join with comma-space and the final author with the
ampersand separator. -/
def specApaAuthors (s : String) : String :=
  let names := (pySplitOn s ", ").map specApaName
  if names.length > 1 then
    String.intercalate ", " names.dropLast ++ ", & " ++ names.getLastD ""
  else names.headD ""

/-- Modelled from the spec: every IEEE-rendered name joined with and. -/
def specIeeeAuthors (s : String) : String :=
  String.intercalate " and " ((pySplitOn s ", ").map specIeeeName)

/-- On a name with at least one token the loop body renders the APA form. -/
theorem formatOneName_apa (nm : String) (h : pySplitWs nm ≠ []) :
    formatOneName nm .apa = some (specApaName nm) := by
  cases hp : pySplitWs nm with
  | nil => exact absurd hp h
  | cons x xs => simp [formatOneName, specApaName, hp]

/-- On a name with at least one token the loop body renders the IEEE form. -/
theorem formatOneName_ieee (nm : String) (h : pySplitWs nm ≠ []) :
    formatOneName nm .ieee = some (specIeeeName nm) := by
  cases hp : pySplitWs nm with
  | nil => exact absurd hp h
  | cons x xs => simp [formatOneName, specIeeeName, hp]

/-- C9: on every non-empty author display string different from the sentinel
whose comma-separated names each contain at least one whitespace-separated
token, the author reformatter renders exactly the spec rule: APA as
Surname, I. I. per author joined with comma-space and the last with the
ampersand separator, IEEE as I. I. Surname joined with and. -/
theorem format_authors_follows_spec :
    ∀ s : String, s ≠ "" → s ≠ "Authors Not Found" →
      (∀ nm ∈ pySplitOn s ", ", pySplitWs nm ≠ []) →
      format_authors (.vStr s) .apa = specApaAuthors s ∧
      format_authors (.vStr s) .ieee = specIeeeAuthors s := by
  intro s h1 h2 h3
  have hne : (pySplitOn s ", ").map specApaName ≠ [] := by
    simpa using pySplitOn_ne_nil s ", "
  have hne2 : (pySplitOn s ", ").map specIeeeName ≠ [] := by
    simpa using pySplitOn_ne_nil s ", "
  constructor
  · simp only [format_authors]
    rw [if_neg (by simp [h1, h2])]
    rw [filterMap_all_some _ specApaName _
      (fun nm hnm => formatOneName_apa nm (h3 nm hnm))]
    rw [if_neg (by simpa using hne)]
    rfl
  · simp only [format_authors]
    rw [if_neg (by simp [h1, h2])]
    rw [filterMap_all_some _ specIeeeName _
      (fun nm hnm => formatOneName_ieee nm (h3 nm hnm))]
    rw [if_neg (by simpa using hne2)]
    rfl

/-- C9 witness: the claim applied at a concrete two-author display string. -/
theorem format_authors_follows_spec_witness :
    format_authors (.vStr "John A Smith, Mary Jones") .apa =
      specApaAuthors "John A Smith, Mary Jones" ∧
    format_authors (.vStr "John A Smith, Mary Jones") .ieee =
      specIeeeAuthors "John A Smith, Mary Jones" :=
  format_authors_follows_spec "John A Smith, Mary Jones"
    (by decide) (by decide) (by decide)

/-- The dictionary keys the APA formatter looks up, every one of them
unconditionally. -/
def apaReferencedKeys : List String :=
  ["Full Authors", "Year Published", "Paper Title", "Journal Name", "Volume",
   "Page", "raw_doi"]

/-- The dictionary keys the IEEE formatter looks up unconditionally (every
referenced key except Year Published, which is read only under a truthy
month). -/
def ieeeStrictKeys : List String :=
  ["Full Authors", "Volume", "Journal Name", "Paper Title", "Page", "month",
   "raw_doi"]

/-- A missing key among the unconditionally referenced ones makes the APA
formatter return its placeholder. -/
theorem apa_missing_key_placeholder (d : PyDict) (k : String)
    (hk : k ∈ apaReferencedKeys) (habs : pyLookup d k = none) :
    generate_apa_citation d = .ok apaPlaceholder := by
  cases h1 : pyLookup d "Full Authors" with
  | none => simp [generate_apa_citation, apaBody, pyGetItem, h1]
  | some v1 =>
  cases h2 : pyLookup d "Year Published" with
  | none => simp [generate_apa_citation, apaBody, pyGetItem, h1, h2]
  | some v2 =>
  cases h3 : pyLookup d "Paper Title" with
  | none => simp [generate_apa_citation, apaBody, pyGetItem, h1, h2, h3]
  | some v3 =>
  cases v3 with
  | vNone => simp [generate_apa_citation, apaBody, pyGetItem, pyAddStr, h1, h2, h3]
  | vStr t3 =>
  cases h4 : pyLookup d "Journal Name" with
  | none => simp [generate_apa_citation, apaBody, pyGetItem, pyAddStr, h1, h2, h3, h4]
  | some v4 =>
  cases h5 : pyLookup d "Volume" with
  | none => simp [generate_apa_citation, apaBody, pyGetItem, pyAddStr, h1, h2, h3, h4, h5]
  | some v5 =>
  cases h6 : pyLookup d "Page" with
  | none =>
    simp [generate_apa_citation, apaBody, pyGetItem, pyAddStr, h1, h2, h3, h4, h5, h6]
  | some v6 =>
  cases h7 : pyLookup d "raw_doi" with
  | none =>
    simp [generate_apa_citation, apaBody, pyGetItem, pyAddStr, h1, h2, h3, h4, h5, h6, h7]
  | some v7 =>
    exfalso
    fin_cases hk <;> simp_all

/-- A missing key among the unconditionally referenced ones makes the IEEE
formatter return its placeholder. -/
theorem ieee_missing_key_placeholder (d : PyDict) (k : String)
    (hk : k ∈ ieeeStrictKeys) (habs : pyLookup d k = none) :
    generate_ieee_citation d = .ok ieeePlaceholder := by
  cases h1 : pyLookup d "Full Authors" with
  | none => simp [generate_ieee_citation, ieeeBody, pyGetItem, h1]
  | some v1 =>
  cases h2 : pyLookup d "Volume" with
  | none => simp [generate_ieee_citation, ieeeBody, pyGetItem, h1, h2]
  | some v2 =>
  cases v2 with
  | vNone => simp [generate_ieee_citation, ieeeBody, pyGetItem, h1, h2]
  | vStr t2 =>
  cases h3 : pyLookup d "Journal Name" with
  | none => simp [generate_ieee_citation, ieeeBody, pyGetItem, h1, h2, h3]
  | some v3 =>
  cases h4 : pyLookup d "Paper Title" with
  | none => simp [generate_ieee_citation, ieeeBody, pyGetItem, h1, h2, h3, h4]
  | some v4 =>
  cases h5 : pyLookup d "Page" with
  | none => simp [generate_ieee_citation, ieeeBody, pyGetItem, h1, h2, h3, h4, h5]
  | some v5 =>
  cases h6 : pyLookup d "month" with
  | none => simp [generate_ieee_citation, ieeeBody, pyGetItem, h1, h2, h3, h4, h5, h6]
  | some v6 =>
  cases hb : pyTruthy v6 with
  | false =>
    cases h7 : pyLookup d "raw_doi" with
    | none =>
      simp [generate_ieee_citation, ieeeBody, pyGetItem, h1, h2, h3, h4, h5, h6, h7, hb]
    | some v7 =>
      exfalso
      fin_cases hk <;> simp_all
  | true =>
    cases h7 : pyLookup d "Year Published" with
    | none =>
      simp [generate_ieee_citation, ieeeBody, pyGetItem, h1, h2, h3, h4, h5, h6, h7, hb]
    | some v7 =>
      cases h8 : pyLookup d "raw_doi" with
      | none =>
        simp [generate_ieee_citation, ieeeBody, pyGetItem, h1, h2, h3, h4, h5, h6, h7,
          h8, hb]
      | some v8 =>
        exfalso
        fin_cases hk <;> simp_all

/-- A missing Year Published with a present truthy month also makes the IEEE
formatter return its placeholder (the year is then looked up and raises). -/
theorem ieee_missing_year_truthy_month_placeholder (d : PyDict) (m : PyVal)
    (hy : pyLookup d "Year Published" = none) (hm : pyLookup d "month" = some m)
    (hmt : pyTruthy m = true) :
    generate_ieee_citation d = .ok ieeePlaceholder := by
  cases h1 : pyLookup d "Full Authors" with
  | none => simp [generate_ieee_citation, ieeeBody, pyGetItem, h1]
  | some v1 =>
  cases h2 : pyLookup d "Volume" with
  | none => simp [generate_ieee_citation, ieeeBody, pyGetItem, h1, h2]
  | some v2 =>
  cases v2 with
  | vNone => simp [generate_ieee_citation, ieeeBody, pyGetItem, h1, h2]
  | vStr t2 =>
  cases h3 : pyLookup d "Journal Name" with
  | none => simp [generate_ieee_citation, ieeeBody, pyGetItem, h1, h2, h3]
  | some v3 =>
  cases h4 : pyLookup d "Paper Title" with
  | none => simp [generate_ieee_citation, ieeeBody, pyGetItem, h1, h2, h3, h4]
  | some v4 =>
  cases h5 : pyLookup d "Page" with
  | none => simp [generate_ieee_citation, ieeeBody, pyGetItem, h1, h2, h3, h4, h5]
  | some v5 =>
    simp [generate_ieee_citation, ieeeBody, pyGetItem, h1, h2, h3, h4, h5, hm, hmt, hy]

/-- C8 as amended: each formatter fails closed over the keys it actually
reads.  The APA formatter returns its placeholder whenever any of its seven
referenced keys is absent.  The IEEE formatter returns its placeholder
whenever any of its unconditionally read keys is absent, and also when Year
Published is absent while the stored month value is truthy; a missing Year
Published with a falsy month is not detected (the and-condition
short-circuits), so the IEEE formatter then emits a citation without the
date segment instead of the placeholder. -/
theorem citations_fail_closed_characterized :
    (∀ (d : PyDict) (k : String), k ∈ apaReferencedKeys → pyLookup d k = none →
      generate_apa_citation d = .ok apaPlaceholder) ∧
    (∀ (d : PyDict) (k : String), k ∈ ieeeStrictKeys → pyLookup d k = none →
      generate_ieee_citation d = .ok ieeePlaceholder) ∧
    (∀ (d : PyDict) (m : PyVal), pyLookup d "Year Published" = none →
      pyLookup d "month" = some m → pyTruthy m = true →
      generate_ieee_citation d = .ok ieeePlaceholder) :=
  ⟨apa_missing_key_placeholder, ieee_missing_key_placeholder,
   ieee_missing_year_truthy_month_placeholder⟩

/-- A record missing only Year Published, with a present None month (exactly
what a scrape without any date signal stores). -/
def ieeeNoYearDict : PyDict :=
  [("Full Authors", .vStr "John Smith"), ("Volume", .vStr "4(1)"),
   ("Journal Name", .vStr "J"), ("Paper Title", .vStr "T"),
   ("Page", .vStr "Page Not Found"), ("month", .vNone), ("raw_doi", .vStr "10.1/x")]

/-- A record missing only the month key. -/
def apaNoMonthDict : PyDict :=
  [("Full Authors", .vStr "John Smith"), ("Year Published", .vStr "2023"),
   ("Paper Title", .vStr "T"), ("Journal Name", .vStr "J"), ("Volume", .vStr "4"),
   ("Page", .vStr "Page Not Found"), ("raw_doi", .vStr "10.1/x")]

/-- C8 counterexample: with the referenced key Year Published absent and the
month value falsy, the IEEE formatter emits a genuine citation rather than
its placeholder; and with the IEEE-referenced key month absent the APA
formatter (which never reads month) emits a genuine citation, so the claim
that BOTH formatters return their placeholder whenever AT LEAST ONE
referenced key is absent fails in both readings. -/
theorem citation_not_fail_closed :
    pyLookup ieeeNoYearDict "Year Published" = none ∧
    generate_ieee_citation ieeeNoYearDict =
      .ok "J. Smith, \"T,\" J, vol. 4, no. 1, doi: 10.1/x." ∧
    generate_ieee_citation ieeeNoYearDict ≠ .ok ieeePlaceholder ∧
    pyLookup apaNoMonthDict "month" = none ∧
    generate_apa_citation apaNoMonthDict ≠ .ok apaPlaceholder := by
  refine ⟨rfl, rfl, by decide, rfl, by decide⟩

/-- C8 witness: the amended claim applied on the empty record (the example
field Paper Title absent). -/
theorem citations_fail_closed_characterized_witness :
    generate_apa_citation [] = .ok apaPlaceholder ∧
    generate_ieee_citation [] = .ok ieeePlaceholder :=
  ⟨citations_fail_closed_characterized.1 [] "Paper Title" (by decide) rfl,
   citations_fail_closed_characterized.2.1 [] "Paper Title" (by decide) rfl⟩

/-- Splitting a successful Except bind into its two successful stages. -/
theorem except_bind_okE {ε α β : Type} {x : Except ε α} {f : α → Except ε β} {b : β}
    (h : x >>= f = .ok b) : ∃ a, x = .ok a ∧ f a = .ok b := by
  cases x with
  | error e => exact absurd h (by simp)
  | ok a => exact ⟨a, rfl, h⟩

/-- Every successful scrape dictionary binds Website Link to the scraped URL
and contains no Remarks key (the scraper never sets one). -/
theorem buildScrapedData_shape (url : String) (doc : Doc) (preVol : Option String)
    (d : PyDict) (h : buildScrapedData url doc preVol = .ok d) :
    pyLookup d "Website Link" = some (.vStr url) ∧ pyLookup d "Remarks" = none := by
  unfold buildScrapedData at h
  obtain ⟨dateInfo, -, h⟩ := except_bind_okE h
  obtain ⟨rawDoi, -, h⟩ := except_bind_okE h
  obtain ⟨jn, -, h⟩ := except_bind_okE h
  obtain ⟨pt, -, h⟩ := except_bind_okE h
  obtain ⟨fa, -, h⟩ := except_bind_okE h
  obtain ⟨vol, -, h⟩ := except_bind_okE h
  obtain ⟨pg, -, h⟩ := except_bind_okE h
  obtain ⟨ab, -, h⟩ := except_bind_okE h
  obtain ⟨kw, -, h⟩ := except_bind_okE h
  obtain ⟨apa, -, h⟩ := except_bind_okE h
  obtain ⟨ieee, -, h⟩ := except_bind_okE h
  rw [exceptPure] at h
  injection h with hd
  subst hd
  constructor <;> simp [pyLookup, List.find?]

/-- The scrape-dictionary key facts lifted to scrape_website. -/
theorem scrape_website_keys (w : World) (url : String) (preVol : Option String)
    (d : PyDict) (h : scrape_website w url preVol = some d) :
    pyLookup d "Website Link" = some (.vStr url) ∧ pyLookup d "Remarks" = none := by
  unfold scrape_website at h
  cases hp : w.page url with
  | none =>
    simp only [hp] at h
    exact absurd h (by simp)
  | some doc =>
    simp only [hp] at h
    cases hb : buildScrapedData url doc preVol with
    | error e =>
      simp only [hb] at h
      exact absurd h (by simp)
    | ok d2 =>
      simp only [hb] at h
      have hd : d2 = d := by simpa using h
      subst hd
      exact buildScrapedData_shape url doc preVol d2 hb

/-- C10: upserting a re-scraped record replaces the whole stored row, so the
row for that URL after the upsert carries the default not-checked remark and
a cleared (NULL) last_validated, even when a Validator pass had just written
a remark and date for that URL; the scrape dictionary has no Remarks key and
the insert column list omits last_validated, which is what discards the
Validator's two fields. -/
theorem rescrape_resets_validation :
    ∀ (w : World) (url : String) (preVol : Option String) (d : PyDict)
      (s : Store) (remark today : String),
      scrape_website w url preVol = some d →
      ∀ r ∈ add_or_update_article d (update_article_remark url remark today s),
        r.websiteLink = .vStr url →
        r.remarks = .vStr "❓ Not Checked" ∧ r.lastValidated = .vNone := by
  intro w url preVol d s remark today hscrape r hr hkey
  obtain ⟨hwl, hrem⟩ := scrape_website_keys w url preVol d hscrape
  have hrowkey : (mkRowFromDict d).websiteLink = PyVal.vStr url := by
    simp [mkRowFromDict, pyGetD, hwl]
  have hrowrem : (mkRowFromDict d).remarks = PyVal.vStr "❓ Not Checked" := by
    simp [mkRowFromDict, pyGetD, hrem]
  simp only [add_or_update_article] at hr
  rw [if_neg (by rw [hrowkey]; simp)] at hr
  rcases List.mem_append.mp hr with hmem | hmem
  · exfalso
    have hne := List.of_mem_filter hmem
    rw [hrowkey] at hne
    simp [hkey] at hne
  · have heq : r = mkRowFromDict d := by simpa using hmem
    subst heq
    exact ⟨hrowrem, rfl⟩

/-- The URL of the witness article page. -/
def soloUrl : String := "http://journal.example/article/view/9"

/-- A world holding exactly one successfully fetched page with no metadata. -/
def soloWorld : World := ⟨fun u => if u = soloUrl then some emptyDoc else none⟩

/-- The record the witness scrape produces. -/
def soloDict : PyDict := (scrape_website soloWorld soloUrl none).getD []

/-- A previously stored and validated row for the witness URL. -/
def soloValidatedRow : Row :=
  { mkRowFromDict soloDict with
    remarks := .vStr "✔️ Match", lastValidated := .vStr "2026-10-01" }

/-- C10 witness: the claim applied at a concrete world, URL and store. -/
theorem rescrape_resets_validation_witness :
    (mkRowFromDict soloDict).remarks = .vStr "❓ Not Checked" ∧
    (mkRowFromDict soloDict).lastValidated = .vNone :=
  rescrape_resets_validation soloWorld soloUrl none soloDict [soloValidatedRow]
    "✔️ Match" "2026-10-02" (by rfl) (mkRowFromDict soloDict)
    (by simp only [add_or_update_article]; split <;> simp) (by rfl)

/-- The outcome of one article-level scrape attempt within a batch: a
successful scrape of a URL with its record, a failed article scrape, or a
collection link whose discovery produced nothing. -/
inductive BatchEvent where
  | scrapedOk (url : String) (record : PyDict)
  | scrapeFailed (url : String)
  | volumeFailed (url : String)

/-- The event one article URL produces; the scrape outcome depends only on
the world, the URL and the pre-scraped volume, not on the batch state. -/
def eventOfArticle (w : World) (preVol : Option String) (a : String) : BatchEvent :=
  match scrape_website w a preVol with
  | some r => .scrapedOk a r
  | none => .scrapeFailed a

/-- The events one submitted link produces, in processing order. -/
def eventsOfLink (w : World) (link : String) : List BatchEvent :=
  if strContains link "/issue/view/" then
    let preScraped := extract_volume_from_toc_page w link
    let preVol : Option String :=
      if preScraped = "Volume Not Found (from TOC)" then none else some preScraped
    let discovered := discover_article_links w link
    if discovered.isEmpty then [.volumeFailed link]
    else discovered.map (eventOfArticle w preVol)
  else [eventOfArticle w none link]

/-- Concatenation of the per-element lists. -/
def listFlat {α β : Type} (f : α → List β) : List α → List β
  | [] => []
  | x :: xs => f x ++ listFlat f xs

/-- All article-level events of one batch, in processing order. -/
def batchEvents (w : World) (links : List String) : List BatchEvent :=
  listFlat (eventsOfLink w) (dedupFirst links)

/-- One event applied to the batch state; this is the loop body the two
process_links loops share. -/
def applyEvent (st : BatchState) (e : BatchEvent) : BatchState :=
  match e with
  | .scrapedOk u r =>
    let isUpdate := (PyVal.vStr u) ∈ st.scrapedUrls
    { st with
      store := add_or_update_article r st.store,
      updatedCount := if isUpdate then st.updatedCount + 1 else st.updatedCount,
      newCount := if isUpdate then st.newCount else st.newCount + 1,
      scrapedUrls := pyInsertSet (.vStr u) st.scrapedUrls }
  | .scrapeFailed u => { st with failedLinks := st.failedLinks ++ [u] }
  | .volumeFailed u => { st with failedLinks := st.failedLinks ++ ["(Volume Link) " ++ u] }

/-- The per-article loop body equals the event application. -/
theorem handleArticle_eq_event (w : World) (preVol : Option String)
    (st : BatchState) (a : String) :
    handleArticle w preVol st a = applyEvent st (eventOfArticle w preVol a) := by
  unfold handleArticle applyEvent eventOfArticle
  cases h : scrape_website w a preVol <;> simp

/-- The inner discovered-links loop equals folding the mapped events. -/
theorem foldl_map_eventOfArticle (w : World) (preVol : Option String) :
    ∀ (l : List String) (st : BatchState),
      l.foldl (handleArticle w preVol) st =
        (l.map (eventOfArticle w preVol)).foldl applyEvent st := by
  intro l
  induction l with
  | nil => intro st; rfl
  | cons a t ih =>
    intro st
    rw [List.foldl_cons, List.map_cons, List.foldl_cons, handleArticle_eq_event, ih]

/-- One submitted link processed by process_links equals its events folded. -/
theorem handleLink_eq_events (w : World) (st : BatchState) (link : String) :
    handleLink w st link = (eventsOfLink w link).foldl applyEvent st := by
  unfold handleLink eventsOfLink
  cases hc : strContains link "/issue/view/" with
  | false => simp [hc, handleArticle_eq_event]
  | true =>
    simp only [hc, if_true]
    cases hd : (discover_article_links w link).isEmpty with
    | true => simp [hd, applyEvent]
    | false => simp [hd, foldl_map_eventOfArticle]

/-- The whole batch loop equals folding the batch events. -/
theorem foldl_handleLink_eq_events (w : World) :
    ∀ (ls : List String) (st : BatchState),
      ls.foldl (handleLink w) st = (listFlat (eventsOfLink w) ls).foldl applyEvent st := by
  intro ls
  induction ls with
  | nil => intro st; rfl
  | cons a t ih =>
    intro st
    rw [List.foldl_cons, listFlat, List.foldl_append, handleLink_eq_events, ih]

/-- Modelled from the amended claim: the number of updated classifications,
where a successful scrape counts as updated exactly when its URL belongs to
the seen set - the pre-batch store URLs plus the URLs successfully scraped
earlier in the same batch - and the seen set grows with every success. -/
def specUpdatedCount (seen : List PyVal) : List BatchEvent → Nat
  | [] => 0
  | .scrapedOk u _ :: es =>
    if (PyVal.vStr u) ∈ seen then specUpdatedCount seen es + 1
    else specUpdatedCount (pyInsertSet (.vStr u) seen) es
  | .scrapeFailed _ :: es => specUpdatedCount seen es
  | .volumeFailed _ :: es => specUpdatedCount seen es

/-- Modelled from the amended claim: the number of new classifications,
complementary to specUpdatedCount. -/
def specNewCount (seen : List PyVal) : List BatchEvent → Nat
  | [] => 0
  | .scrapedOk u _ :: es =>
    if (PyVal.vStr u) ∈ seen then specNewCount seen es
    else specNewCount (pyInsertSet (.vStr u) seen) es + 1
  | .scrapeFailed _ :: es => specNewCount seen es
  | .volumeFailed _ :: es => specNewCount seen es

/-- The failed-links list the events determine. -/
def specFailedLinks : List BatchEvent → List String
  | [] => []
  | .scrapedOk _ _ :: es => specFailedLinks es
  | .scrapeFailed u :: es => u :: specFailedLinks es
  | .volumeFailed u :: es => ("(Volume Link) " ++ u) :: specFailedLinks es

/-- Folding events matches the three spec accumulators. -/
theorem applyEvents_counts :
    ∀ (es : List BatchEvent) (st : BatchState),
      (es.foldl applyEvent st).updatedCount =
        st.updatedCount + specUpdatedCount st.scrapedUrls es ∧
      (es.foldl applyEvent st).newCount =
        st.newCount + specNewCount st.scrapedUrls es ∧
      (es.foldl applyEvent st).failedLinks =
        st.failedLinks ++ specFailedLinks es := by
  intro es
  induction es with
  | nil =>
    intro st
    simp [specUpdatedCount, specNewCount, specFailedLinks]
  | cons e t ih =>
    intro st
    cases e with
    | scrapedOk u r =>
      obtain ⟨ih1, ih2, ih3⟩ := ih (applyEvent st (.scrapedOk u r))
      by_cases hm : (PyVal.vStr u) ∈ st.scrapedUrls
      · have hins : pyInsertSet (.vStr u) st.scrapedUrls = st.scrapedUrls := by
          simp [pyInsertSet, hm]
        refine ⟨?_, ?_, ?_⟩
        · rw [List.foldl_cons, ih1]
          simp [applyEvent, hins, hm, specUpdatedCount]
          try omega
        · rw [List.foldl_cons, ih2]
          simp [applyEvent, hins, hm, specNewCount]
          try omega
        · rw [List.foldl_cons, ih3]
          simp [applyEvent, specFailedLinks]
      · have hins : pyInsertSet (.vStr u) st.scrapedUrls =
            st.scrapedUrls ++ [.vStr u] := by
          simp [pyInsertSet, hm]
        refine ⟨?_, ?_, ?_⟩
        · rw [List.foldl_cons, ih1]
          simp [applyEvent, hins, hm, specUpdatedCount]
        · rw [List.foldl_cons, ih2]
          simp [applyEvent, hins, hm, specNewCount]
          try omega
        · rw [List.foldl_cons, ih3]
          simp [applyEvent, specFailedLinks]
    | scrapeFailed u =>
      obtain ⟨ih1, ih2, ih3⟩ := ih (applyEvent st (.scrapeFailed u))
      refine ⟨?_, ?_, ?_⟩
      · rw [List.foldl_cons, ih1]
        simp [applyEvent, specUpdatedCount]
      · rw [List.foldl_cons, ih2]
        simp [applyEvent, specNewCount]
      · rw [List.foldl_cons, ih3]
        simp [applyEvent, specFailedLinks]
    | volumeFailed u =>
      obtain ⟨ih1, ih2, ih3⟩ := ih (applyEvent st (.volumeFailed u))
      refine ⟨?_, ?_, ?_⟩
      · rw [List.foldl_cons, ih1]
        simp [applyEvent, specUpdatedCount]
      · rw [List.foldl_cons, ih2]
        simp [applyEvent, specNewCount]
      · rw [List.foldl_cons, ih3]
        simp [applyEvent, specFailedLinks]

/-- C2 as amended: a successfully scraped URL is counted as updated exactly
when it was in the pre-batch store OR had already been successfully scraped
earlier in the same batch (the scraped_urls set grows during the batch), and
as new otherwise; the failed list collects failed article URLs and tagged
empty-discovery collection URLs in order. -/
theorem process_links_classification :
    ∀ (w : World) (links : List String) (store : Store),
      (process_links w links store).1.updatedCount =
        specUpdatedCount (store.map (fun r => r.websiteLink)) (batchEvents w links) ∧
      (process_links w links store).1.newCount =
        specNewCount (store.map (fun r => r.websiteLink)) (batchEvents w links) ∧
      (process_links w links store).1.failedLinks =
        specFailedLinks (batchEvents w links) := by
  intro w links store
  simp only [process_links, batchEvents]
  obtain ⟨h1, h2, h3⟩ := applyEvents_counts (listFlat (eventsOfLink w) (dedupFirst links))
    ⟨0, 0, [], store.map (fun r => r.websiteLink), store⟩
  refine ⟨?_, ?_, ?_⟩ <;>
    simp [foldl_handleLink_eq_events, h1, h2, h3]

/-- The article URL reached twice in the counterexample batch. -/
def artUrl2 : String := "http://journal.example/article/view/7"

/-- The collection URL whose discovery yields the same article URL. -/
def tocUrl2 : String := "http://journal.example/issue/view/5"

/-- The TOC page of the counterexample: no usable headings, one discovered
article link. -/
def tocDoc2 : Doc := { emptyDoc with selector1Links := [artUrl2] }

/-- The counterexample world: the article page and the TOC page both fetch
successfully. -/
def doubleReachWorld : World :=
  ⟨fun u => if u = artUrl2 then some emptyDoc
    else if u = tocUrl2 then some tocDoc2 else none⟩

/-- C2 counterexample: starting from the EMPTY store, a URL reached twice in
one batch - once as a direct single-article URL and once as a link
discovered from a collection URL - is counted once as new and once as
updated, although no record for it existed in the pre-batch store; the claim
demands zero updated classifications here. -/
theorem double_reach_counted_as_updated :
    (process_links doubleReachWorld [artUrl2, tocUrl2] []).1 =
      ⟨1, 1, ([] : List String)⟩ := by
  rfl

end JournalScraper
